import Mathlib

/-!
Verification of the shareable-notes-backend AI proxy (src/server.js, src/aiService.js).

The development shallowly embeds the code that the specification's claims are
about: a JSON value model (for the bodies produced by `JSON.parse` and for the
values carried in request bodies), an executable JSON parser mirroring
`JSON.parse`'s accept/reject behaviour, the markdown code-fence stripping and
the per-task response normalizers of src/aiService.js, the request-validation
and task-dispatch logic of the POST /api/ai handler in src/server.js, and the
upstream completion adapter `callGroqAPI`.

Modelling conventions:
- JavaScript exceptions are modelled with `Option`/`Except` (`none` / `.error`
  marks a thrown exception); functions whose source wraps the work in
  `try { ... } catch { ... }` are total and apply the catch branch where the
  model reports a throw.
- JavaScript numbers are modelled as exact rationals (`Rat`).  JSON number
  literals denote exact decimal values, so this agrees with the source except
  for IEEE-754 rounding of extreme literals, which no claim exercises.
- Strings are Lean `String`s (sequences of Unicode scalar values).  JavaScript
  strings are UTF-16 code-unit sequences; the two agree on all inputs free of
  lone surrogates, and `\uXXXX` escapes are resolved including surrogate
  pairs (a lone surrogate escape is rejected by the model's parser).
-/

/-- A JavaScript JSON value, as produced by `JSON.parse`: the possible shapes of
`req.body` fields and of parsed model completions.  Objects keep their fields
as an ordered association list (duplicate keys may occur in the parsed text;
property lookup takes the last occurrence, as `JSON.parse` does). -/
inductive Json where
  | null
  | bool (b : Bool)
  | num (q : Rat)
  | str (s : String)
  | arr (elems : List Json)
  | obj (fields : List (String × Json))

/-- Own-property lookup on an object's field list: the last occurrence of a
duplicated key wins, matching the object `JSON.parse` builds. -/
def jsGet (fields : List (String × Json)) (key : String) : Option Json :=
  match fields with
  | [] => none
  | (k, v) :: rest =>
    match jsGet rest key with
    | some w => some w
    | none => if k = key then some v else none

/-- JavaScript truthiness of a JSON value (`Boolean(v)`):
`null`, `false`, `0` (including `-0` and `0.0`) and `""` are falsy; every
other number and string, and every array and object, is truthy. -/
def Json.truthy : Json → Bool
  | .null => false
  | .bool b => b
  | .num q => !(q == 0)
  | .str s => !(s == "")
  | .arr _ => true
  | .obj _ => true

/-- `v.key` property access.  Outer `none` models a thrown `TypeError`
(base is `null`); `some none` models the `undefined` result (base is a
primitive or array without such a property, or an object lacking the key);
`some (some w)` is the found value. -/
def getProp : Json → String → Option (Option Json)
  | .null, _ => none
  | .obj fs, k => some (jsGet fs k)
  | _, _ => some none

/-- `v?.key` optional-chaining access: `null`/`undefined` bases short-circuit
to `undefined` instead of throwing. -/
def optChainGet (v : Option Json) (k : String) : Option Json :=
  match v with
  | none => none
  | some .null => none
  | some (.obj fs) => jsGet fs k
  | some _ => none

/-- The whitespace characters `JSON.parse` skips between tokens
(space, tab, line feed, carriage return). -/
def isJsonWs (c : Char) : Bool :=
  c = ' ' || c = '\t' || c = '\n' || c = '\r'

/-- Skip JSON inter-token whitespace. -/
def skipWs : List Char → List Char
  | [] => []
  | c :: cs => if isJsonWs c then skipWs cs else c :: cs

/-- Whether `c` is a decimal digit. -/
def isDigitC (c : Char) : Bool := 0x30 ≤ c.toNat && c.toNat ≤ 0x39

/-- Value of the decimal digit `c`. -/
def digitVal (c : Char) : Nat := c.toNat - 0x30

/-- Take a maximal run of decimal digits, returning their values and the rest. -/
def takeDigits : List Char → List Nat × List Char
  | [] => ([], [])
  | c :: cs =>
    if isDigitC c then
      let p := takeDigits cs
      (digitVal c :: p.1, p.2)
    else ([], c :: cs)

/-- Value of a digit list read most-significant first. -/
def digitsVal (ds : List Nat) : Nat := ds.foldl (fun a d => a * 10 + d) 0

/-- Integer part of a JSON number: a lone `0`, or a nonzero digit followed by
more digits (so `01` stops after the `0`, and the leftover digit then makes the
whole parse fail exactly where `JSON.parse` reports a syntax error). -/
def parseIntPart : List Char → Option (List Nat × List Char)
  | [] => none
  | '0' :: cs => some ([0], cs)
  | c :: cs =>
    if isDigitC c then
      let p := takeDigits cs
      some (digitVal c :: p.1, p.2)
    else none

/-- Exponent tail after the `e`/`E`: optional sign then digits.  When no digit
follows, the `e` is left unconsumed (`orig`), making the enclosing parse fail
exactly where `JSON.parse` would. -/
def parseExpTail (r orig : List Char) : Bool × List Nat × List Char :=
  match r with
  | '+' :: c :: rr =>
    if isDigitC c then
      let p := takeDigits (c :: rr)
      (false, p.1, p.2)
    else (false, [], orig)
  | '-' :: c :: rr =>
    if isDigitC c then
      let p := takeDigits (c :: rr)
      (true, p.1, p.2)
    else (false, [], orig)
  | c :: rr =>
    if isDigitC c then
      let p := takeDigits (c :: rr)
      (false, p.1, p.2)
    else (false, [], orig)
  | [] => (false, [], orig)

/-- The exact rational value of a parsed number literal
`sign intPart . fracPart e expSign expPart`.  Integer literals take the
division-free branch so that closed instances reduce cheaply. -/
def mkNumVal (neg : Bool) (ids fds : List Nat) (eneg : Bool) (eds : List Nat) : Rat :=
  if fds.isEmpty && eds.isEmpty then
    let i : Int := digitsVal ids
    ((if neg then -i else i : Int) : Rat)
  else
    let base : Rat :=
      ((digitsVal ids : Int) : Rat) + ((digitsVal fds : Int) : Rat) / (10 : Rat) ^ fds.length
    let e := digitsVal eds
    let mag := if eneg then base / (10 : Rat) ^ e else base * (10 : Rat) ^ e
    if neg then -mag else mag

/-- Parse a JSON number literal: `-? (0 | [1-9][0-9]*) (. [0-9]+)? ([eE][+-]?[0-9]+)?`.
A `.` or `e` not followed by a digit is left unconsumed, so the enclosing
context rejects the input exactly as `JSON.parse` does. -/
def parseNumber (s : List Char) : Option (Rat × List Char) :=
  let sp : Bool × List Char :=
    match s with
    | '-' :: r => (true, r)
    | _ => (false, s)
  match parseIntPart sp.2 with
  | none => none
  | some (ids, s2) =>
    let fr : List Nat × List Char :=
      match s2 with
      | '.' :: c :: r => if isDigitC c then takeDigits (c :: r) else ([], s2)
      | _ => ([], s2)
    let ex : Bool × List Nat × List Char :=
      match fr.2 with
      | 'e' :: r => parseExpTail r fr.2
      | 'E' :: r => parseExpTail r fr.2
      | _ => (false, [], fr.2)
    some (mkNumVal sp.1 ids fr.1 ex.1 ex.2.1, ex.2.2)

/-- Value of one hexadecimal digit (either letter case), `none` otherwise. -/
def hexDigitVal (c : Char) : Option Nat :=
  let n := c.toNat
  if 0x30 ≤ n && n ≤ 0x39 then some (n - 0x30)
  else if 0x61 ≤ n && n ≤ 0x66 then some (n - 0x61 + 10)
  else if 0x41 ≤ n && n ≤ 0x46 then some (n - 0x41 + 10)
  else none

/-- Four hex digits of a `\uXXXX` escape. -/
def parseHex4 : List Char → Option (Nat × List Char)
  | a :: b :: c :: d :: r =>
    match hexDigitVal a, hexDigitVal b, hexDigitVal c, hexDigitVal d with
    | some x, some y, some z, some w => some (((x * 16 + y) * 16 + z) * 16 + w, r)
    | _, _, _, _ => none
  | _ => none

/-- Body of a JSON string after the opening quote: characters up to the closing
quote, resolving escapes (`\uXXXX` including surrogate pairs; a lone surrogate
escape is rejected, see the header note) and rejecting unescaped control
characters.  Fuel bounds the recursion; each step consumes at least one input
character, so `input.length + 1` fuel never runs out. -/
def parseStrBody : Nat → List Char → Option (List Char × List Char)
  | 0, _ => none
  | _ + 1, [] => none
  | fuel + 1, c :: cs =>
    if c = '"' then some ([], cs)
    else if c = '\\' then
      match cs with
      | [] => none
      | e :: cs2 =>
        if e = '"' then (parseStrBody fuel cs2).map (fun p => ('"' :: p.1, p.2))
        else if e = '\\' then (parseStrBody fuel cs2).map (fun p => ('\\' :: p.1, p.2))
        else if e = '/' then (parseStrBody fuel cs2).map (fun p => ('/' :: p.1, p.2))
        else if e = 'b' then (parseStrBody fuel cs2).map (fun p => ('\x08' :: p.1, p.2))
        else if e = 'f' then (parseStrBody fuel cs2).map (fun p => ('\x0c' :: p.1, p.2))
        else if e = 'n' then (parseStrBody fuel cs2).map (fun p => ('\n' :: p.1, p.2))
        else if e = 'r' then (parseStrBody fuel cs2).map (fun p => ('\r' :: p.1, p.2))
        else if e = 't' then (parseStrBody fuel cs2).map (fun p => ('\t' :: p.1, p.2))
        else if e = 'u' then
          match parseHex4 cs2 with
          | none => none
          | some (n, cs3) =>
            if 0xd800 ≤ n && n ≤ 0xdbff then
              match cs3 with
              | '\\' :: 'u' :: cs4 =>
                match parseHex4 cs4 with
                | some (m, cs5) =>
                  if 0xdc00 ≤ m && m ≤ 0xdfff then
                    let code := 0x10000 + (n - 0xd800) * 0x400 + (m - 0xdc00)
                    if h : code.isValidChar then
                      (parseStrBody fuel cs5).map (fun p => (Char.ofNatAux code h :: p.1, p.2))
                    else none
                  else none
                | none => none
              | _ => none
            else if 0xdc00 ≤ n && n ≤ 0xdfff then none
            else
              if h : n.isValidChar then
                (parseStrBody fuel cs3).map (fun p => (Char.ofNatAux n h :: p.1, p.2))
              else none
        else none
    else if c.toNat < 0x20 then none
    else (parseStrBody fuel cs).map (fun p => (c :: p.1, p.2))

mutual

/-- Parse one JSON value (after skipping leading whitespace), returning it with
the unconsumed remainder.  Fuel bounds the mutual recursion; `jsonParse` below
supplies enough for any input it could accept. -/
def parseVal : Nat → List Char → Option (Json × List Char)
  | 0, _ => none
  | fuel + 1, s =>
    match skipWs s with
    | [] => none
    | 'n' :: 'u' :: 'l' :: 'l' :: r => some (.null, r)
    | 't' :: 'r' :: 'u' :: 'e' :: r => some (.bool true, r)
    | 'f' :: 'a' :: 'l' :: 's' :: 'e' :: r => some (.bool false, r)
    | '"' :: r => (parseStrBody (r.length + 1) r).map (fun p => (.str (String.mk p.1), p.2))
    | '[' :: r =>
      (match skipWs r with
       | ']' :: r2 => some (.arr [], r2)
       | r2 => (parseElems fuel r2).map (fun p => (.arr p.1, p.2)))
    | '{' :: r =>
      (match skipWs r with
       | '}' :: r2 => some (.obj [], r2)
       | r2 => (parseMembers fuel r2).map (fun p => (.obj p.1, p.2)))
    | s2 => (parseNumber s2).map (fun p => (.num p.1, p.2))

/-- One or more comma-separated array elements followed by `]`. -/
def parseElems : Nat → List Char → Option (List Json × List Char)
  | 0, _ => none
  | fuel + 1, s =>
    match parseVal fuel s with
    | none => none
    | some (v, r) =>
      match skipWs r with
      | ',' :: r2 => (parseElems fuel r2).map (fun p => (v :: p.1, p.2))
      | ']' :: r2 => some ([v], r2)
      | _ => none

/-- One or more comma-separated `"key": value` object members followed by `}`. -/
def parseMembers : Nat → List Char → Option (List (String × Json) × List Char)
  | 0, _ => none
  | fuel + 1, s =>
    match skipWs s with
    | '"' :: r =>
      (match parseStrBody (r.length + 1) r with
       | none => none
       | some (key, r2) =>
         match skipWs r2 with
         | ':' :: r3 =>
           (match parseVal fuel r3 with
            | none => none
            | some (v, r4) =>
              match skipWs r4 with
              | ',' :: r5 => (parseMembers fuel r5).map (fun p => ((String.mk key, v) :: p.1, p.2))
              | '}' :: r5 => some ([(String.mk key, v)], r5)
              | _ => none)
         | _ => none)
    | _ => none

end

/-- `JSON.parse(s)`: `some` the parsed value, `none` models the thrown
`SyntaxError` (also on trailing non-whitespace).  The fuel `2 * length + 8`
exceeds the recursion depth reachable on any input: every `parseVal` /
`parseElems` / `parseMembers` step consumes at least one character of the
remaining input before recursing, and nesting costs at most two fuel per
consumed character. -/
def jsonParse (s : String) : Option Json :=
  let cs := s.toList
  match parseVal (2 * cs.length + 8) cs with
  | some (v, rest) => if (skipWs rest).isEmpty then some v else none
  | none => none


/-- Match `tok` as a prefix, returning the remainder on success. -/
def dropTok : List Char → List Char → Option (List Char)
  | [], rest => some rest
  | _ :: _, [] => none
  | t :: ts, c :: cs => if c = t then dropTok ts cs else none

/-- `s.replace(tok + optional newline, '')` for a literal token, scanning left
to right without overlap — the effect of the source's
`.replace(/```json\n?/g, '')` and `.replace(/```\n?/g, '')` regexes.  Fuel is
the input length plus one; each step consumes at least one character (the
tokens used are nonempty), so it never runs out. -/
def stripAllTok (tok : List Char) : Nat → List Char → List Char
  | 0, s => s
  | fuel + 1, s =>
    match dropTok tok s with
    | some rest =>
      (match rest with
       | '\n' :: r => stripAllTok tok fuel r
       | r => stripAllTok tok fuel r)
    | none =>
      match s with
      | [] => []
      | c :: cs => c :: stripAllTok tok fuel cs

/-- The characters JavaScript's `String.prototype.trim` removes: WhiteSpace and
LineTerminator code points. -/
def isJsTrimWs (c : Char) : Bool :=
  [0x9, 0xa, 0xb, 0xc, 0xd, 0x20, 0xa0, 0x1680, 0x2000, 0x2001, 0x2002, 0x2003,
   0x2004, 0x2005, 0x2006, 0x2007, 0x2008, 0x2009, 0x200a, 0x2028, 0x2029,
   0x202f, 0x205f, 0x3000, 0xfeff].contains c.toNat

/-- JavaScript `.trim()`: strip trim-whitespace from both ends. -/
def jsTrim (cs : List Char) : List Char :=
  ((cs.dropWhile isJsTrimWs).reverse.dropWhile isJsTrimWs).reverse

/-- The markdown code-fence cleanup shared by `generateGlossary` and
`findGrammarErrors` (src/aiService.js lines 107-110 and 141-144):
`response.replace(/```json\n?/g, '').replace(/```\n?/g, '').trim()`. -/
def cleanFences (response : String) : String :=
  let a := stripAllTok "```json".toList (response.toList.length + 1) response.toList
  let b := stripAllTok "```".toList (a.length + 1) a
  String.mk (jsTrim b)

/-- JavaScript `s.split(',')`: split at every comma; `""` yields `[""]`. -/
def splitOnComma : List Char → List (List Char)
  | [] => [[]]
  | ',' :: r => [] :: splitOnComma r
  | c :: r =>
    match splitOnComma r with
    | h :: t => (c :: h) :: t
    | [] => [[c]]

/-- The tag normalization of `suggestTags` (src/aiService.js lines 67-71):
`response.split(',').map(tag => tag.trim()).filter(tag => tag.length > 0).slice(0, 5)`. -/
def suggestTagsNormalize (response : String) : List String :=
  (((splitOnComma response.toList).map (fun t => String.mk (jsTrim t))).filter
    (fun t => t.length > 0)).take 5


/-- JavaScript truthiness of `item.key`: `none` models the `TypeError` thrown
when `item` is `null`; otherwise the boolean the field access coerces to
(`undefined` when absent, hence falsy). -/
def propTruthy (item : Json) (key : String) : Option Bool :=
  match getProp item key with
  | none => none
  | some none => some false
  | some (some v) => some v.truthy

/-- `item.term && item.definition` coerced by `Array.prototype.every`:
`none` models the `TypeError` on a `null` element; `&&` short-circuits, so
`definition` is only read when `term` is truthy. -/
def glossaryItemCheck (item : Json) : Option Bool :=
  match propTruthy item "term" with
  | none => none
  | some false => some false
  | some true => propTruthy item "definition"

/-- `glossary.every(item => item.term && item.definition)` with JS exception
behaviour: stops at the first falsy check; a `TypeError` (`none`) aborts. -/
def everyCheck : List Json → Option Bool
  | [] => some true
  | x :: xs =>
    match glossaryItemCheck x with
    | none => none
    | some false => some false
    | some true => everyCheck xs

/-- The all-or-nothing validation step of `generateGlossary` (src/aiService.js
lines 115-119): the parsed array is returned whole when every element passes,
and otherwise (a failed check, which the source turns into a thrown
`Error('Invalid glossary format')`, or a `TypeError` from a `null` element)
the enclosing `catch` returns `[]`. -/
def glossaryValidate (items : List Json) : List Json :=
  match everyCheck items with
  | some true => items
  | _ => []

/-- The glossary normalization of `generateGlossary` (src/aiService.js lines
104-124): strip markdown fences, `JSON.parse`, validate every element's `term`
and `definition` are truthy; any parse failure, non-array result, failed
validation or thrown `TypeError` is caught and yields `[]`.  Total: the
`try`/`catch` means it never raises to the caller. -/
def generateGlossaryNormalize (response : String) : List Json :=
  match jsonParse (cleanFences response) with
  | some (.arr items) => glossaryValidate items
  | some _ => []
  | none => []

/-- `item.error && item.correction` as coerced by `Array.prototype.filter`. -/
def grammarItemCheck (item : Json) : Option Bool :=
  match propTruthy item "error" with
  | none => none
  | some false => some false
  | some true => propTruthy item "correction"

/-- `errors.filter(item => item.error && item.correction)` with JS exception
behaviour: a `TypeError` thrown on a `null` element (`none`) aborts the whole
filter. -/
def filterCheck : List Json → Option (List Json)
  | [] => some []
  | x :: xs =>
    match grammarItemCheck x with
    | none => none
    | some true => (filterCheck xs).map (fun l => x :: l)
    | some false => filterCheck xs

/-- The filter step of `findGrammarErrors` (src/aiService.js lines 149-151):
kept elements on success, `[]` when the filter threw (caught by the enclosing
`catch`). -/
def grammarFilter (items : List Json) : List Json :=
  match filterCheck items with
  | some kept => kept
  | none => []

/-- The normalization of `findGrammarErrors` (src/aiService.js lines 139-157):
strip markdown fences, `JSON.parse`, and filter array elements to those with
truthy `error` and `correction`; parse failure or a non-array result yields
`[]`, as does a `TypeError` caught by the `catch`.  Total: never raises. -/
def findGrammarErrorsNormalize (response : String) : List Json :=
  match jsonParse (cleanFences response) with
  | some (.arr items) => grammarFilter items
  | some _ => []
  | none => []


/-- Take a maximal run of hex digits. -/
def takeHexDigits : List Char → List Nat × List Char
  | [] => ([], [])
  | c :: cs =>
    match hexDigitVal c with
    | some d =>
      let p := takeHexDigits cs
      (d :: p.1, p.2)
    | none => ([], c :: cs)

def hexVal (ds : List Nat) : Nat := ds.foldl (fun a d => a * 16 + d) 0

/-- Exponent part of a `Number(string)` coercion: optional sign then digits. -/
def coerceExpPart (r : List Char) : Option (Bool × List Nat × List Char) :=
  let sp : Bool × List Char :=
    match r with
    | '+' :: rr => (false, rr)
    | '-' :: rr => (true, rr)
    | _ => (false, r)
  let d := takeDigits sp.2
  if d.1.isEmpty then none else some (sp.1, d.1, d.2)

/-- Decimal part of a `Number(string)` coercion, after the optional sign:
`digits+ (. digits*)? | . digits+`, then an optional exponent; the whole
remainder must be consumed. -/
def coerceDecTail (neg : Bool) (cs : List Char) : Option Rat :=
  let ip := takeDigits cs
  let fr : Option (List Nat × List Char) :=
    match ip.2 with
    | '.' :: r =>
      let f := takeDigits r
      if ip.1.isEmpty && f.1.isEmpty then none else some (f.1, f.2)
    | r => if ip.1.isEmpty then none else some ([], r)
  match fr with
  | none => none
  | some (fds, rest) =>
    match rest with
    | [] => some (mkNumVal neg ip.1 fds false [])
    | 'e' :: r =>
      (match coerceExpPart r with
       | some (eneg, eds, rem) =>
         if rem.isEmpty then some (mkNumVal neg ip.1 fds eneg eds) else none
       | none => none)
    | 'E' :: r =>
      (match coerceExpPart r with
       | some (eneg, eds, rem) =>
         if rem.isEmpty then some (mkNumVal neg ip.1 fds eneg eds) else none
       | none => none)
    | _ => none

/-- JavaScript `Number(string)` (`none` = NaN): trimmed empty string is `0`,
otherwise an optionally signed decimal literal or a `0x` hex literal.
`Infinity` and the `0o`/`0b` prefixes are not reproduced (they coerce to
non-NaN in JS); nothing in the claims reaches them — this function is only
used for the `length` property of an object-valued request `content`. -/
def strToNumber (s : String) : Option Rat :=
  let cs := jsTrim s.toList
  match cs with
  | [] => some 0
  | _ =>
    let sp : Bool × List Char :=
      match cs with
      | '+' :: r => (false, r)
      | '-' :: r => (true, r)
      | _ => (false, cs)
    match sp.2 with
    | '0' :: 'x' :: r =>
      let h := takeHexDigits r
      if h.1.isEmpty || !h.2.isEmpty || sp.1 then none else some ((hexVal h.1 : Int) : Rat)
    | '0' :: 'X' :: r =>
      let h := takeHexDigits r
      if h.1.isEmpty || !h.2.isEmpty || sp.1 then none else some ((hexVal h.1 : Int) : Rat)
    | r => coerceDecTail sp.1 r

/-- JavaScript `ToNumber` of a JSON value (`none` = NaN), as used by the
relational comparison `content.length > 50000`.  A multi-element array joins
with commas, hence NaN; a singleton array coerces through its element's string
form, which agrees with coercing the element itself except for booleans
(`[true]` is NaN), matched by the dedicated case. -/
def toNumber : Json → Option Rat
  | .num q => some q
  | .null => some 0
  | .bool b => some (if b then 1 else 0)
  | .str s => strToNumber s
  | .arr [] => some 0
  | .arr [.bool _] => none
  | .arr [x] => toNumber x
  | .arr _ => none
  | .obj _ => none

/-- JavaScript decimal display of a `Rat`, exact for integers — the only
numbers the claims route into a template literal; non-integer rationals (never
reached there) are shown as a fraction rather than JS decimal notation. -/
def ratDisplay (q : Rat) : String :=
  if q.den = 1 then toString q.num else toString q.num ++ "/" ++ toString q.den

mutual

/-- `String(v)` as used by the template literal `` `Unknown task: ${task}` ``
and `new Error(msg)`. -/
def jsDisplay : Json → String
  | .null => "null"
  | .bool b => if b then "true" else "false"
  | .num q => ratDisplay q
  | .str s => s
  | .arr xs => jsDisplayList xs
  | .obj _ => "[object Object]"

/-- `Array.prototype.toString`: elements joined with commas.  (JS renders a
`null` element as the empty string inside a join; that corner is unreachable
from the claims, which only display string-valued tasks.) -/
def jsDisplayList : List Json → String
  | [] => ""
  | [x] => jsDisplay x
  | x :: xs => jsDisplay x ++ "," ++ jsDisplayList xs

end

/-- The `.length` property read by the size check: string length (UTF-16 code
units; equal to the scalar count on surrogate-free strings), array length, an
object's own `length` field, and `undefined` (`none`) on other primitives. -/
def jsLength : Json → Option Json
  | .str s => some (.num (s.length : Rat))
  | .arr xs => some (.num (xs.length : Rat))
  | .obj fs => jsGet fs "length"
  | _ => none

/-- `content.length > 50000` (src/server.js line 59) with JS comparison
semantics: an `undefined` or NaN left side compares false. -/
def contentTooLarge (content : Json) : Bool :=
  match jsLength content with
  | none => false
  | some v =>
    match toNumber v with
    | none => false
    | some q => decide (q > 50000)

/-- The four routed task kinds of the `switch` in src/server.js. -/
inductive TaskKind where
  | summarize
  | tags
  | grammar
  | glossary

/-- What the POST /api/ai handler decides before any upstream work: `reject`
is an early `res.status(...).json(...)` return — the Task Executor is never
invoked, hence zero upstream calls — while `dispatch` proceeds into the
`switch` arm that performs the single upstream call. -/
inductive HandlerOutcome where
  | reject (status : Nat) (error : String)
  | dispatch (task : TaskKind) (content : Json)

def missingFieldsMsg : String := "Missing required fields: task and content"

def notConfiguredMsg : String :=
  "AI service not configured. Please set GROQ_API_KEY in environment variables."

def tooLargeMsg : String := "Content too large. Maximum 50,000 characters allowed."

/-- The default-arm message of the task `switch` (src/server.js line 91). -/
def unknownTaskMsg (task : Json) : String :=
  "Unknown task: " ++ jsDisplay task ++ ". Valid tasks are: summarize, tags, grammar, glossary"

/-- Truthiness of a possibly-absent request field (`undefined` is falsy). -/
def optTruthy : Option Json → Bool
  | none => false
  | some v => v.truthy

/-- `!GROQ_API_KEY || GROQ_API_KEY === 'your_groq_api_key_here'`
(src/server.js line 51): the environment variable is either unset or a
string. -/
def notConfigured : Option String → Bool
  | none => true
  | some k => k == "" || k == "your_groq_api_key_here"

/-- The size check applied after the presence check; `none` cannot occur there
(a missing field is falsy and was rejected), so it is mapped to `false`. -/
def optContentTooLarge : Option Json → Bool
  | none => false
  | some v => contentTooLarge v

/-- The `switch (task)` of src/server.js lines 71-93: strict string comparison
against the four task names; every other value falls to the `default` arm's
400 response. -/
def routeTask (task content : Json) : HandlerOutcome :=
  match task with
  | .str t =>
    if t = "summarize" then .dispatch .summarize content
    else if t = "tags" then .dispatch .tags content
    else if t = "grammar" then .dispatch .grammar content
    else if t = "glossary" then .dispatch .glossary content
    else .reject 400 (unknownTaskMsg (.str t))
  | other => .reject 400 (unknownTaskMsg other)

/-- A POST /api/ai request body after `express.json`: the `task` and `content`
fields, each possibly absent (`undefined`). -/
structure ReqBody where
  task : Option Json
  content : Option Json

/-- The validation and dispatch phase of the POST /api/ai handler
(src/server.js lines 41-93), in source order: missing-field check (400),
credential check (500), size check (400), then the task `switch`.  In the
final branch both fields are present: a truthy field cannot be `undefined`,
so the `getD` defaults are never read. -/
def handleAiRequest (apiKey : Option String) (req : ReqBody) : HandlerOutcome :=
  if !optTruthy req.task || !optTruthy req.content then
    .reject 400 missingFieldsMsg
  else if notConfigured apiKey then
    .reject 500 notConfiguredMsg
  else if optContentTooLarge req.content then
    .reject 400 tooLargeMsg
  else
    routeTask (req.task.getD .null) (req.content.getD .null)


/-- The outcome of the single axios POST inside `callGroqAPI`
(src/aiService.js lines 11-36): a 2xx response with parsed body `data`, a
non-2xx response (axios throws with `error.response.data` when the error body
was delivered), or a failure with no response at all (network error, timeout —
`error.response` is `undefined`). -/
inductive UpstreamResult where
  | success (data : Json)
  | httpError (data : Option Json)
  | networkError

/-- `v[0]` element access on a non-null value: array head, string head,
object `"0"` property, `undefined` otherwise; `none` models the `TypeError`
when the base is `null`. -/
def jsIndex0 : Json → Option (Option Json)
  | .null => none
  | .arr [] => some none
  | .arr (x :: _) => some (some x)
  | .obj fs => some (jsGet fs "0")
  | .str s =>
    (match s.toList with
     | [] => some none
     | c :: _ => some (some (.str (String.mk [c]))))
  | _ => some none

/-- `response.data.choices[0].message.content` (src/aiService.js line 38):
`none` models a `TypeError` thrown along the access chain (missing `choices`,
empty or missing first choice, missing `message`); `some none` is the
`undefined` returned when only the final `content` field is absent; `some
(some v)` is the content value. -/
def extractContent (data : Json) : Option (Option Json) :=
  match getProp data "choices" with
  | none => none
  | some none => none
  | some (some choices) =>
    match jsIndex0 choices with
    | none => none
    | some none => none
    | some (some c0) =>
      match getProp c0 "message" with
      | none => none
      | some none => none
      | some (some msg) => getProp msg "content"

/-- The fallback of `throw new Error(error.response?.data?.error?.message || 'AI service error')`. -/
def genericErrMsg : String := "AI service error"

/-- The message of the error `callGroqAPI` throws on an HTTP failure
(src/aiService.js line 41): the upstream body's `error.message` when present
and truthy, else the generic fallback. -/
def upstreamErrMsg (data : Option Json) : String :=
  match optChainGet (optChainGet data "error") "message" with
  | some v => if v.truthy then jsDisplay v else genericErrMsg
  | none => genericErrMsg

/-- The request `callGroqAPI` builds (src/aiService.js lines 11-35): fixed
model and sampling parameters, the two chat messages (system prompt and user
content), and non-streaming mode.  The bearer credential is the `apiKey`
argument, which the claims never inspect past this point. -/
structure GroqRequest where
  model : String
  systemPrompt : String
  userContent : Json
  temperature : Rat
  maxTokens : Nat
  topP : Rat
  stream : Bool

def mkGroqRequest (systemPrompt : String) (userContent : Json) : GroqRequest :=
  { model := "llama-3.1-8b-instant"
    systemPrompt := systemPrompt
    userContent := userContent
    temperature := 7 / 10
    maxTokens := 1024
    topP := 1
    stream := false }

/-- How `callGroqAPI` maps the outcome of its one HTTP exchange to a return or
a thrown error (src/aiService.js lines 36-42): on success the first-choice
content (a `TypeError` while extracting it is caught and, having no
`response` field, rethrown with the generic message); on an HTTP error the
upstream-provided message when available, else the generic one. -/
def callGroqAPIOutcome : UpstreamResult → Except String (Option Json)
  | .success data =>
    (match extractContent data with
     | some v => .ok v
     | none => .error genericErrMsg)
  | .httpError data => .error (upstreamErrMsg data)
  | .networkError => .error genericErrMsg

/-- `callGroqAPI(systemPrompt, userContent, apiKey)` (src/aiService.js lines
9-43).  The environment is a function from the built request and the attempt
index to that attempt's outcome; the adapter consults attempt `0` only — there
is no retry path in the source, so the result is determined by the first
exchange. -/
def callGroqAPI (systemPrompt : String) (userContent : Json)
    (upstream : GroqRequest → Nat → UpstreamResult) : Except String (Option Json) :=
  callGroqAPIOutcome (upstream (mkGroqRequest systemPrompt userContent) 0)

/-- A well-formed chat-completion body whose first choice carries `s`. -/
def wellFormedChat (s : String) : Json :=
  .obj [("choices", .arr [.obj [("message", .obj [("content", .str s)])]])]

/-- An upstream error body carrying `m` at `error.message`. -/
def errBody (m : String) : Json :=
  .obj [("error", .obj [("message", .str m)])]

/-- A 2xx body whose first choice has a `message` object with no `content`
field: property access yields `undefined` without throwing. -/
def chatNoContent : Json :=
  .obj [("choices", .arr [.obj [("message", .obj [])]])]

def summarizeSystemPrompt : String :=
  "You are a helpful assistant that creates concise summaries. \nSummarize the given text in 1-2 sentences. Be clear and capture the main points."

def tagsSystemPrompt : String :=
  "You are a helpful assistant that suggests relevant tags for notes.\nAnalyze the content and suggest 5 relevant, concise tags (single words or short phrases).\nReturn ONLY a comma-separated list of tags, nothing else.\nExample output: productivity, meeting, project, deadline, team"

def grammarSystemPrompt : String :=
  "You are a grammar and spelling expert.\nFix any grammar, spelling, or punctuation errors in the given text.\nPreserve the original meaning and style as much as possible.\nIf the text is already correct, return it unchanged.\nReturn ONLY the corrected text, no explanations."

def glossarySystemPrompt : String :=
  "You are a helpful assistant that identifies key technical or important terms in text.\nAnalyze the content and identify up to 5 key terms that would benefit from definitions.\nReturn your response as a valid JSON array with this exact format:\n[\x7b\"term\": \"example term\", \"definition\": \"brief definition\"\x7d]\n\nRules:\n- Return ONLY valid JSON, nothing else\n- Include 3-5 terms maximum\n- Keep definitions concise (under 20 words)\n- Focus on technical, domain-specific, or uncommon terms"

/-- `summarizeText` (src/aiService.js lines 48-53): one upstream call with the
summary prompt, result returned unchanged. -/
def summarizeText (content : Json) (u : GroqRequest → Nat → UpstreamResult) :
    Except String (Option Json) :=
  callGroqAPI summarizeSystemPrompt content u

/-- `checkGrammar` (src/aiService.js lines 77-85): one upstream call with the
grammar prompt, result returned unchanged. -/
def checkGrammar (content : Json) (u : GroqRequest → Nat → UpstreamResult) :
    Except String (Option Json) :=
  callGroqAPI grammarSystemPrompt content u

/-- The typed result each task kind promises its caller (spec section 3). -/
inductive TaskResult where
  | plainText (s : String)
  | tagList (entries : List String)
  | glossaryEntries (entries : List Json)

/-- The per-task response normalization applied to a raw completion string:
pass-through for summarize and grammar, the comma-split pipeline for tags, the
fence-strip/parse/validate pipeline for glossary. -/
def normalizeTask : TaskKind → String → TaskResult
  | .summarize, s => .plainText s
  | .grammar, s => .plainText s
  | .tags, s => .tagList (suggestTagsNormalize s)
  | .glossary, s => .glossaryEntries (generateGlossaryNormalize s)


/-- Whether the handler rejected before invoking the Task Executor; a `true`
result means zero upstream calls were made for the request. -/
def HandlerOutcome.isReject : HandlerOutcome → Bool
  | .reject _ _ => true
  | .dispatch _ _ => false

/-- The per-element predicate of the `findGrammarErrors` filter, as it behaves
on elements whose property access cannot throw. -/
def grammarKeep (x : Json) : Bool := grammarItemCheck x == some true

/-- A request `content` string one character over the 50,000 limit. -/
def longContent : String := String.mk (List.replicate 50001 'a')

/-- A glossary element whose `term` is a whitespace-only string and whose
`definition` is a number — both truthy — plus an extra field. -/
def gWhitespaceNumItem : Json :=
  .obj [("term", .str " "), ("definition", .num 5), ("note", .null)]

/-- A glossary element with truthy string fields. -/
def gGoodItem : Json := .obj [("term", .str "x"), ("definition", .str "y")]

/-- A glossary element missing its `definition` field. -/
def gBadItem : Json := .obj [("term", .str "x")]

/-- An upstream environment always answering 2xx with a first choice whose
`message` lacks the `content` field. -/
def noContentUpstream : GroqRequest → Nat → UpstreamResult :=
  fun _ _ => .success chatNoContent

/-- A completion that parses to an array holding a `null` element next to a
well-formed error/correction object. -/
def nullElemCompletion : String := "[null,\x7b\"error\":\"a\",\"correction\":\"b\"\x7d]"

/-- The well-formed element of `nullElemCompletion`. -/
def keptGrammarItem : Json := .obj [("error", .str "a"), ("correction", .str "b")]

/-! ## Helper lemmas -/

theorem everyCheck_all {items : List Json}
    (h : ∀ x ∈ items, glossaryItemCheck x = some true) : everyCheck items = some true := by
  induction items with
  | nil => rfl
  | cons x xs ih =>
    have hx := h x (List.mem_cons_self x xs)
    simp only [everyCheck, hx]
    exact ih fun y hy => h y (List.mem_cons_of_mem x hy)

theorem everyCheck_not_all {items : List Json} {x : Json} (hm : x ∈ items)
    (hx : glossaryItemCheck x ≠ some true) : everyCheck items ≠ some true := by
  induction items with
  | nil => cases hm
  | cons y ys ih =>
    rcases List.mem_cons.mp hm with h | h
    · subst h
      simp only [everyCheck]
      cases hcheck : glossaryItemCheck x with
      | none => simp
      | some b =>
        cases b with
        | false => simp
        | true => exact absurd hcheck hx
    · simp only [everyCheck]
      cases hcheck : glossaryItemCheck y with
      | none => simp
      | some b =>
        cases b with
        | false => simp
        | true => exact ih h

theorem propTruthy_eq_none {x : Json} {k : String} (h : propTruthy x k = none) :
    x = Json.null := by
  cases x with
  | null => rfl
  | obj fs =>
    exfalso
    simp only [propTruthy, getProp] at h
    cases hg : jsGet fs k <;> simp [hg] at h
  | bool b => simp [propTruthy, getProp] at h
  | num q => simp [propTruthy, getProp] at h
  | str s => simp [propTruthy, getProp] at h
  | arr xs => simp [propTruthy, getProp] at h

theorem grammarItemCheck_eq_none {x : Json} (h : grammarItemCheck x = none) :
    x = Json.null := by
  unfold grammarItemCheck at h
  cases hp : propTruthy x "error" with
  | none => exact propTruthy_eq_none hp
  | some b =>
    rw [hp] at h
    cases b with
    | false => simp at h
    | true => exact propTruthy_eq_none (by simpa using h)

theorem filterCheck_no_null {items : List Json} (h : ∀ x ∈ items, x ≠ Json.null) :
    filterCheck items = some (items.filter grammarKeep) := by
  induction items with
  | nil => rfl
  | cons x xs ih =>
    have hx : x ≠ Json.null := h x (List.mem_cons_self x xs)
    have ih2 := ih fun y hy => h y (List.mem_cons_of_mem x hy)
    cases hc : grammarItemCheck x with
    | none => exact absurd (grammarItemCheck_eq_none hc) hx
    | some b =>
      cases b with
      | true =>
        simp only [filterCheck, hc, ih2, Option.map_some, List.filter_cons]
        simp [grammarKeep, hc]
      | false =>
        simp only [filterCheck, hc, ih2, List.filter_cons]
        simp [grammarKeep, hc]

theorem filterCheck_has_null {items : List Json} (h : Json.null ∈ items) :
    filterCheck items = none := by
  induction items with
  | nil => cases h
  | cons x xs ih =>
    rcases List.mem_cons.mp h with h1 | h1
    · rw [← h1]
      simp [filterCheck, grammarItemCheck, propTruthy, getProp]
    · cases hc : grammarItemCheck x with
      | none => simp [filterCheck, hc]
      | some b =>
        cases b with
        | true => simp [filterCheck, hc, ih h1]
        | false => simp only [filterCheck, hc]; exact ih h1

theorem contentTooLarge_str {s : String} (h : s.length > 50000) :
    contentTooLarge (.str s) = true := by
  simp only [contentTooLarge, jsLength, toNumber]
  rw [decide_eq_true_iff]
  exact_mod_cast h

theorem str_ne_empty_of_length {s : String} (h : s.length > 50000) : s ≠ "" := by
  intro he
  rw [he] at h
  simp at h

theorem longContent_length : longContent.length = 50001 := by
  show (List.replicate 50001 'a').length = 50001
  rw [List.length_replicate]

/-! ## Claim theorems -/

/-- Claim C1: for every raw completion string, the glossary normalizer strips
markdown code-fence wrappers, parses the remainder as JSON and validates that
the value is an array whose every element has truthy (in particular non-empty)
`term` and `definition` fields; when parsing and validation succeed it returns
the parsed array — a fence-wrapped completion containing
`[{"term":"x","definition":"y"}]` yields exactly that array — and on any parse
failure or structural validation failure it returns the empty sequence.  It
never raises to the caller: `generateGlossaryNormalize` is total, with the
source's `catch` branch embedded as the `[]` outcomes. -/
theorem generateGlossaryNormalize_spec :
    generateGlossaryNormalize "```json\n[\x7b\"term\":\"x\",\"definition\":\"y\"\x7d]\n```" =
      [.obj [("term", Json.str "x"), ("definition", Json.str "y")]]
    ∧ (∀ s, jsonParse (cleanFences s) = none → generateGlossaryNormalize s = [])
    ∧ (∀ s items, jsonParse (cleanFences s) = some (.arr items) →
        everyCheck items = some true → generateGlossaryNormalize s = items)
    ∧ (∀ s items, jsonParse (cleanFences s) = some (.arr items) →
        everyCheck items ≠ some true → generateGlossaryNormalize s = [])
    ∧ (∀ s v, jsonParse (cleanFences s) = some v → (∀ items, v ≠ Json.arr items) →
        generateGlossaryNormalize s = []) := by
  refine ⟨by rfl, ?_, ?_, ?_, ?_⟩
  · intro s h
    simp [generateGlossaryNormalize, h]
  · intro s items h hv
    simp [generateGlossaryNormalize, h, glossaryValidate, hv]
  · intro s items h hv
    simp only [generateGlossaryNormalize, h, glossaryValidate]
  · intro s v h hv
    cases v with
    | arr items => exact absurd rfl (hv items)
    | null => simp [generateGlossaryNormalize, h]
    | bool b => simp [generateGlossaryNormalize, h]
    | num q => simp [generateGlossaryNormalize, h]
    | str t => simp [generateGlossaryNormalize, h]
    | obj fs => simp [generateGlossaryNormalize, h]

/-- Witness for C1: the parse-failure and fence-stripping branches at concrete
inputs. -/
theorem generateGlossaryNormalize_spec_witness :
    generateGlossaryNormalize "not valid json" = [] :=
  generateGlossaryNormalize_spec.2.1 "not valid json" (by rfl)

/-- Claim C2: the tag normalizer splits the completion on commas, trims each
piece, drops empty pieces and truncates to the first five, preserving order
with no padding — so the result always has at most five entries, each
non-empty, and is a prefix of the untruncated trim-and-filter pipeline; the
quoted example completion yields exactly its first five non-empty tags. -/
theorem suggestTagsNormalize_spec :
    suggestTagsNormalize "alpha, beta ,gamma,,delta, epsilon, zeta" =
      ["alpha", "beta", "gamma", "delta", "epsilon"]
    ∧ (∀ s, (suggestTagsNormalize s).length ≤ 5)
    ∧ (∀ s t, t ∈ suggestTagsNormalize s → t.length > 0)
    ∧ (∀ s, suggestTagsNormalize s <+:
        ((splitOnComma s.toList).map (fun t => String.mk (jsTrim t))).filter
          (fun t => decide (t.length > 0))) := by
  refine ⟨by rfl, ?_, ?_, ?_⟩
  · intro s
    exact List.length_take_le 5 _
  · intro s t ht
    have h2 := List.take_subset 5 _ ht
    simpa using List.of_mem_filter h2
  · intro s
    exact List.take_prefix 5 _

/-- Witness for C2: each non-empty entry of a concrete run is non-empty. -/
theorem suggestTagsNormalize_spec_witness : "ab".length > 0 :=
  suggestTagsNormalize_spec.2.2.1 " ab , c" "ab" (by decide)

/-- Claim C7: for every task kind, normalization is a deterministic pure
function of the raw completion — it is modelled as a Lean function of the
completion string alone, so two runs on equal inputs yield equal
`TaskResult`s, with no dependence on outside state. -/
theorem normalizeTask_deterministic :
    ∀ (k : TaskKind) (s1 s2 : String), s1 = s2 → normalizeTask k s1 = normalizeTask k s2 := by
  intro k s1 s2 h
  rw [h]

/-- Witness for C7: two runs on the same concrete completion agree. -/
theorem normalizeTask_deterministic_witness :
    normalizeTask .tags "a, b" = normalizeTask .tags "a, b" :=
  normalizeTask_deterministic .tags "a, b" "a, b" rfl

/-- Claim C9: the glossary validation is truthiness-based and all-or-nothing.
If every element's `term` and `definition` are truthy the parsed elements come
back unmodified (extra fields preserved, non-string truthy values such as
numbers and whitespace-only strings accepted); if any element fails the check
the whole result is `[]` — no per-element filtering.  The final conjunct ties
the validation step to `generateGlossaryNormalize` on every parsed array. -/
theorem glossaryValidate_spec :
    (∀ items, (∀ x ∈ items, glossaryItemCheck x = some true) → glossaryValidate items = items)
    ∧ (∀ items x, x ∈ items → glossaryItemCheck x ≠ some true → glossaryValidate items = [])
    ∧ glossaryValidate [gWhitespaceNumItem] = [gWhitespaceNumItem]
    ∧ glossaryValidate [gGoodItem, gBadItem] = []
    ∧ (∀ s items, jsonParse (cleanFences s) = some (.arr items) →
        generateGlossaryNormalize s = glossaryValidate items) := by
  refine ⟨?_, ?_, by rfl, by rfl, ?_⟩
  · intro items h
    unfold glossaryValidate
    rw [everyCheck_all h]
  · intro items x hm hx
    have hne := everyCheck_not_all hm hx
    simp only [glossaryValidate]
  · intro s items h
    simp [generateGlossaryNormalize, h]

/-- Witness for C9: an all-truthy singleton array is returned unmodified, and
one failing element empties a two-element array. -/
theorem glossaryValidate_spec_witness :
    glossaryValidate [gGoodItem] = [gGoodItem] ∧ glossaryValidate [gBadItem, gGoodItem] = [] :=
  ⟨glossaryValidate_spec.1 [gGoodItem] (by
      intro x hx
      simp only [List.mem_singleton] at hx
      subst hx
      rfl),
   glossaryValidate_spec.2.1 [gBadItem, gGoodItem] gBadItem (by simp) (by decide)⟩

/-- Counterexample to claim C10 as stated: on the completion
`[null,{"error":"a","correction":"b"}]` the parsed array contains `null`, and
per-element filtering would keep the well-formed object; the code instead
returns `[]`, because `item.error` on the `null` element throws a `TypeError`
that the enclosing `catch` turns into the empty array. -/
theorem findGrammarErrors_counterexample :
    findGrammarErrorsNormalize nullElemCompletion = []
    ∧ jsonParse (cleanFences nullElemCompletion) = some (.arr [.null, keptGrammarItem])
    ∧ List.filter grammarKeep [Json.null, keptGrammarItem] = [keptGrammarItem]
    ∧ ([keptGrammarItem] : List Json) ≠ [] := by
  refine ⟨by rfl, by rfl, by rfl, by simp⟩

/-- Claim C10 (amended): `findGrammarErrorsNormalize` never raises (it is
total, with the source's `catch` embedded as the `[]` outcomes); it strips
code fences and parses as JSON; on parse failure or a non-array value it
returns `[]`; on an array all of whose elements are non-`null` it filters per
element, keeping exactly those with truthy `error` and `correction` fields;
but on an array containing a `null` element the filter callback's property
access throws and the caught exception yields `[]` instead. -/
theorem findGrammarErrors_amended :
    (∀ s, jsonParse (cleanFences s) = none → findGrammarErrorsNormalize s = [])
    ∧ (∀ s v, jsonParse (cleanFences s) = some v → (∀ items, v ≠ Json.arr items) →
        findGrammarErrorsNormalize s = [])
    ∧ (∀ s items, jsonParse (cleanFences s) = some (.arr items) →
        (∀ x ∈ items, x ≠ Json.null) →
        findGrammarErrorsNormalize s = items.filter grammarKeep)
    ∧ (∀ s items, jsonParse (cleanFences s) = some (.arr items) → Json.null ∈ items →
        findGrammarErrorsNormalize s = []) := by
  refine ⟨?_, ?_, ?_, ?_⟩
  · intro s h
    simp [findGrammarErrorsNormalize, h]
  · intro s v h hv
    cases v with
    | arr items => exact absurd rfl (hv items)
    | null => simp [findGrammarErrorsNormalize, h]
    | bool b => simp [findGrammarErrorsNormalize, h]
    | num q => simp [findGrammarErrorsNormalize, h]
    | str t => simp [findGrammarErrorsNormalize, h]
    | obj fs => simp [findGrammarErrorsNormalize, h]
  · intro s items h hnn
    simp [findGrammarErrorsNormalize, h, grammarFilter, filterCheck_no_null hnn]
  · intro s items h hnull
    simp [findGrammarErrorsNormalize, h, grammarFilter, filterCheck_has_null hnull]

/-- Witness for C10 (amended): the parse-failure branch and the per-element
filter branch at concrete inputs. -/
theorem findGrammarErrors_amended_witness :
    findGrammarErrorsNormalize "not json at all" = []
    ∧ findGrammarErrorsNormalize "[\x7b\"error\":\"a\",\"correction\":\"b\"\x7d,\x7b\"error\":\"x\"\x7d]" =
        List.filter grammarKeep [keptGrammarItem, Json.obj [("error", Json.str "x")]] :=
  ⟨findGrammarErrors_amended.1 "not json at all" (by rfl),
   findGrammarErrors_amended.2.2.1
     "[\x7b\"error\":\"a\",\"correction\":\"b\"\x7d,\x7b\"error\":\"x\"\x7d]"
     [keptGrammarItem, Json.obj [("error", Json.str "x")]] (by rfl)
     (by
       intro x hx
       rcases List.mem_cons.mp hx with h | h
       · subst h; simp [keptGrammarItem]
       · simp only [List.mem_singleton] at h
         subst h
         simp)⟩

/-- Counterexample to claim C3 as stated: a request with over-limit content
sent to a server whose credential is unconfigured is answered with the 500
configuration error — the credential check at src/server.js line 51 runs
before the size check at line 59 — not with a 400. -/
theorem contentLimit_counterexample :
    handleAiRequest none ⟨some (.str "summarize"), some (.str longContent)⟩ =
      .reject 500 notConfiguredMsg
    ∧ (500 : Nat) ≠ 400 := by
  exact ⟨rfl, by decide⟩

/-- Claim C3 (amended): provided the credential is configured (otherwise the
earlier credential check rejects with 500), every request whose `content` is a
string longer than 50,000 characters and whose `task` is truthy is answered
with the 400 size-limit rejection; and in every case — whatever the credential
or the `task` field — such a request is rejected before dispatch, so zero
upstream calls are performed. -/
theorem contentLimit_amended :
    (∀ key task s, notConfigured key = false → Json.truthy task = true →
      s.length > 50000 →
      handleAiRequest key ⟨some task, some (.str s)⟩ = .reject 400 tooLargeMsg)
    ∧ (∀ key task s, s.length > 50000 →
      (handleAiRequest key ⟨task, some (.str s)⟩).isReject = true) := by
  constructor
  · intro key task s hkey htask hlen
    have hbeq : (s == "") = false := beq_eq_false_iff_ne.mpr (str_ne_empty_of_length hlen)
    have ht : optTruthy (some task) = true := htask
    have hc : optTruthy (some (.str s)) = true := by simp [optTruthy, Json.truthy, hbeq]
    simp [handleAiRequest, ht, hc, hkey, optContentTooLarge, contentTooLarge_str hlen]
  · intro key task s hlen
    simp only [handleAiRequest]
    by_cases h1 : (!optTruthy task || !optTruthy (some (.str s))) = true
    · simp only [h1, if_true]
      rfl
    · simp only [h1, if_false]
      by_cases h2 : notConfigured key = true
      · simp only [h2, if_true]
        rfl
      · simp only [h2, if_false]
        have h3 : optContentTooLarge (some (.str s)) = true := by
          simp [optContentTooLarge, contentTooLarge_str hlen]
        simp only [h3, if_true]
        rfl

/-- Witness for C3 (amended): a configured server rejects a 50,001-character
content with the 400 size-limit message. -/
theorem contentLimit_amended_witness :
    handleAiRequest (some "gsk_test") ⟨some (.str "summarize"), some (.str longContent)⟩ =
      .reject 400 tooLargeMsg :=
  contentLimit_amended.1 (some "gsk_test") (.str "summarize") longContent (by rfl) (by rfl)
    (by rw [longContent_length]; decide)

/-- Counterexample to claim C4 as stated: a request whose `task` is outside
the enumeration, sent to a server whose credential is unconfigured, is
answered 500 with the configuration message — not 400 with an unknown-task
message — because the credential check runs before the task `switch`. -/
theorem unknownTask_counterexample :
    handleAiRequest none ⟨some (.str "bogus"), some (.str "hello")⟩ =
      .reject 500 notConfiguredMsg
    ∧ (500 : Nat) ≠ 400 := by
  exact ⟨rfl, by decide⟩

/-- Claim C4 (amended): provided both fields are present and truthy, the
credential is configured and the content is not over the size limit, a string
`task` outside {summarize, tags, grammar, glossary} reaches the `switch`
default arm and is rejected 400 with the unknown-task message (which names the
valid tasks); the rejection happens before dispatch, so zero upstream calls
are performed.  When one of the earlier checks fires instead, the request is
still rejected (missing fields 400, unconfigured 500, oversized 400) but with
that check's status and message. -/
theorem unknownTask_amended :
    ∀ key t content, notConfigured key = false → Json.truthy content = true →
      contentTooLarge content = false →
      t ≠ "" → t ≠ "summarize" → t ≠ "tags" → t ≠ "grammar" → t ≠ "glossary" →
      handleAiRequest key ⟨some (.str t), some content⟩ =
        .reject 400 (unknownTaskMsg (.str t)) := by
  intro key t content hkey hcon hlarge h0 h1 h2 h3 h4
  have hbeq : (t == "") = false := beq_eq_false_iff_ne.mpr h0
  have ht : optTruthy (some (.str t)) = true := by simp [optTruthy, Json.truthy, hbeq]
  have hc : optTruthy (some content) = true := hcon
  have hl : optContentTooLarge (some content) = false := hlarge
  simp [handleAiRequest, ht, hc, hkey, hl, routeTask, h1, h2, h3, h4]

/-- Witness for C4 (amended): a configured server rejects the task "bogus"
with the unknown-task message. -/
theorem unknownTask_amended_witness :
    handleAiRequest (some "gsk_test") ⟨some (.str "bogus"), some (.str "hello")⟩ =
      .reject 400 (unknownTaskMsg (.str "bogus")) :=
  unknownTask_amended (some "gsk_test") "bogus" (.str "hello") (by rfl) (by rfl) (by rfl)
    (by decide) (by decide) (by decide) (by decide) (by decide)

/-- Claim C8: whenever `task` or `content` is absent or falsy (empty string,
`0`, `false`, `null`), the handler rejects 400 with the missing-fields
message, before the credential, size and dispatch stages — so the Task
Executor is never invoked with an empty task or empty content (conversely, a
dispatch implies both fields were truthy).  The closed conjuncts exhibit the
four falsy JSON values. -/
theorem missingFields_spec :
    (∀ key req, optTruthy req.task = false ∨ optTruthy req.content = false →
      handleAiRequest key req = .reject 400 missingFieldsMsg)
    ∧ (∀ key req k c, handleAiRequest key req = .dispatch k c →
        optTruthy req.task = true ∧ optTruthy req.content = true)
    ∧ handleAiRequest (some "gsk_test") ⟨some (.str ""), some (.str "x")⟩ =
        .reject 400 missingFieldsMsg
    ∧ handleAiRequest (some "gsk_test") ⟨some (.str "tags"), some (.num 0)⟩ =
        .reject 400 missingFieldsMsg
    ∧ handleAiRequest (some "gsk_test") ⟨some (.bool false), some (.str "x")⟩ =
        .reject 400 missingFieldsMsg
    ∧ handleAiRequest (some "gsk_test") ⟨some (.str "tags"), some .null⟩ =
        .reject 400 missingFieldsMsg
    ∧ handleAiRequest (some "gsk_test") ⟨none, some (.str "x")⟩ =
        .reject 400 missingFieldsMsg := by
  refine ⟨?_, ?_, by rfl, by rfl, by rfl, by rfl, by rfl⟩
  · intro key req h
    rcases h with h | h <;> simp [handleAiRequest, h]
  · intro key req k c hd
    cases h1 : optTruthy req.task with
    | false => simp [handleAiRequest, h1] at hd
    | true =>
      cases h2 : optTruthy req.content with
      | false => simp [handleAiRequest, h2] at hd
      | true => exact ⟨rfl, rfl⟩

/-- Witness for C8: the falsy-field rejection applied at a concrete request. -/
theorem missingFields_spec_witness :
    handleAiRequest none ⟨some (.str "summarize"), some (.str "")⟩ =
      .reject 400 missingFieldsMsg :=
  missingFields_spec.1 none ⟨some (.str "summarize"), some (.str "")⟩ (Or.inr (by rfl))

/-- Counterexample to claim C5 as stated: when the upstream 2xx body has a
first choice whose `message` object merely lacks the `content` field — a
response "missing expected fields" — `callGroqAPI` does not fail with an
error; the access chain ends in `undefined` without throwing, and the adapter
returns that `undefined` (`.ok none`), which is not a completion text either. -/
theorem callGroqAPI_counterexample :
    callGroqAPI "p" (.str "c") noContentUpstream = .ok none
    ∧ (callGroqAPI "p" (.str "c") noContentUpstream).isOk = true := by
  exact ⟨rfl, rfl⟩

/-- Claim C5 (amended): `callGroqAPI` issues exactly one upstream request —
its result is determined by attempt 0 alone, so a failed attempt is never
retried.  On a well-formed response it returns the completion text of the
first choice.  It fails with the upstream-provided message when the HTTP
exchange fails with a truthy `error.message` in the delivered body, and with
the generic fallback message when no response or no usable message is
available or when the success body is missing the `choices` / first-choice /
`message` fields (property access throws, and the rethrow falls back).  The
one deviation from the claim as written: a success body missing only the
final `content` field is returned as the `undefined` value (`.ok none`)
rather than failing. -/
theorem callGroqAPI_amended :
    (∀ p c u v, u (mkGroqRequest p c) 0 = v (mkGroqRequest p c) 0 →
        callGroqAPI p c u = callGroqAPI p c v)
    ∧ (∀ p c u s, u (mkGroqRequest p c) 0 = .success (wellFormedChat s) →
        callGroqAPI p c u = .ok (some (.str s)))
    ∧ (∀ p c u m, u (mkGroqRequest p c) 0 = .httpError (some (errBody m)) → m ≠ "" →
        callGroqAPI p c u = .error m)
    ∧ (∀ p c u, u (mkGroqRequest p c) 0 = .httpError none →
        callGroqAPI p c u = .error genericErrMsg)
    ∧ (∀ p c u, u (mkGroqRequest p c) 0 = .networkError →
        callGroqAPI p c u = .error genericErrMsg)
    ∧ (∀ p c u d, u (mkGroqRequest p c) 0 = .success d → extractContent d = none →
        callGroqAPI p c u = .error genericErrMsg) := by
  refine ⟨?_, ?_, ?_, ?_, ?_, ?_⟩
  · intro p c u v h
    simp only [callGroqAPI, h]
  · intro p c u s h
    simp only [callGroqAPI, h]
    rfl
  · intro p c u m h hm
    have hbeq : (m == "") = false := beq_eq_false_iff_ne.mpr hm
    simp only [callGroqAPI, h, callGroqAPIOutcome]
    simp [upstreamErrMsg, errBody, optChainGet, jsGet, Json.truthy, hbeq, jsDisplay]
  · intro p c u h
    simp only [callGroqAPI, h]
    rfl
  · intro p c u h
    simp only [callGroqAPI, h]
    rfl
  · intro p c u d h he
    simp only [callGroqAPI, h, callGroqAPIOutcome, he]

/-- Witness for C5 (amended): the well-formed-response and upstream-message
branches at concrete environments. -/
theorem callGroqAPI_amended_witness :
    callGroqAPI "p" (.str "c") (fun _ _ => .success (wellFormedChat "hi")) =
      .ok (some (.str "hi"))
    ∧ callGroqAPI "p" (.str "c") (fun _ _ => .httpError (some (errBody "Invalid API Key"))) =
      .error "Invalid API Key" :=
  ⟨callGroqAPI_amended.2.1 "p" (.str "c") (fun _ _ => .success (wellFormedChat "hi")) "hi" rfl,
   callGroqAPI_amended.2.2.1 "p" (.str "c")
     (fun _ _ => .httpError (some (errBody "Invalid API Key"))) "Invalid API Key" rfl
     (by decide)⟩

/-- Claim C6: the summarize and grammar task kinds apply no post-processing:
`summarizeText` and `checkGrammar` are exactly the upstream adapter under
their respective prompts, and whatever completion text the adapter's first
choice carries is returned unchanged, with no fallback. -/
theorem passthrough_spec :
    (∀ c u, summarizeText c u = callGroqAPI summarizeSystemPrompt c u)
    ∧ (∀ c u, checkGrammar c u = callGroqAPI grammarSystemPrompt c u)
    ∧ (∀ c u s, u (mkGroqRequest summarizeSystemPrompt c) 0 = .success (wellFormedChat s) →
        summarizeText c u = .ok (some (.str s)))
    ∧ (∀ c u s, u (mkGroqRequest grammarSystemPrompt c) 0 = .success (wellFormedChat s) →
        checkGrammar c u = .ok (some (.str s)))
    ∧ (∀ s, normalizeTask .summarize s = .plainText s ∧ normalizeTask .grammar s = .plainText s) := by
  refine ⟨fun c u => rfl, fun c u => rfl, ?_, ?_, fun s => ⟨rfl, rfl⟩⟩
  · intro c u s h
    simp only [summarizeText, callGroqAPI, h]
    rfl
  · intro c u s h
    simp only [checkGrammar, callGroqAPI, h]
    rfl

/-- Witness for C6: a concrete completion is passed through unchanged by both
task functions. -/
theorem passthrough_spec_witness :
    summarizeText (.str "note") (fun _ _ => .success (wellFormedChat "a summary")) =
      .ok (some (.str "a summary"))
    ∧ checkGrammar (.str "note") (fun _ _ => .success (wellFormedChat "fixed text")) =
      .ok (some (.str "fixed text")) :=
  ⟨passthrough_spec.2.2.1 (.str "note") (fun _ _ => .success (wellFormedChat "a summary"))
     "a summary" rfl,
   passthrough_spec.2.2.2.1 (.str "note") (fun _ _ => .success (wellFormedChat "fixed text"))
     "fixed text" rfl⟩

/-- Sanity checks evaluating the embedded parser and handler on concrete
inputs, mirroring behaviours of `JSON.parse`, the POST /api/ai handler and the
adapter that the claim theorems rely on. -/
theorem model_sanity_checks :
    jsonParse "[1, 2]" = some (.arr [.num 1, .num 2])
    ∧ jsonParse " \x7b\"a\": true, \"a\": null\x7d " =
        some (.obj [("a", .bool true), ("a", .null)])
    ∧ jsonParse "not json" = none
    ∧ jsonParse "[1,]" = none
    ∧ jsonParse "01" = none
    ∧ jsonParse "\"a\\u0041b\"" = some (.str "aAb")
    ∧ handleAiRequest (some "k") ⟨some (.str "tags"), some (.str "note text")⟩ =
        .dispatch .tags (.str "note text")
    ∧ handleAiRequest (some "your_groq_api_key_here") ⟨some (.str "tags"), some (.str "n")⟩ =
        .reject 500 notConfiguredMsg
    ∧ callGroqAPIOutcome (.httpError (some (.str "gateway timeout"))) = .error genericErrMsg
    ∧ callGroqAPIOutcome (.success (.obj [("choices", .arr [])])) = .error genericErrMsg := by
  exact ⟨rfl, rfl, rfl, rfl, rfl, rfl, rfl, rfl, rfl, rfl⟩
